import Mathlib

/-!
Verification of the motion/trail subsystem of the India-map flight demo
(`src/src/App.tsx`).  The animation state, trail admission and buffer
rebuild are embedded over `ℚ` (the source compares a Euclidean distance
with 0.5; we compare squared distance with 0.5², which is equivalent
since both sides are nonnegative).  The orientation pipeline, whose
arithmetic is irrational (square roots, π), is embedded over `ℝ`.
-/

namespace IndiaMap

/-- A 3D vector, as `THREE.Vector3` restricted to the rational values the
model manipulates. -/
structure Vec3 where
  x : ℚ
  y : ℚ
  z : ℚ
deriving DecidableEq

/-- Squared Euclidean distance between two points.  The source gates trail
admission on `previousPosition.distanceTo(position) > 0.5`; since both the
distance and 0.5 are nonnegative this is equivalent to
`distSq previousPosition position > 0.5 ^ 2`, which stays inside `ℚ`. -/
def distSq (a b : Vec3) : ℚ :=
  (a.x - b.x) ^ 2 + (a.y - b.y) ^ 2 + (a.z - b.z) ^ 2

/-- Per-tick progress increment, `t += 0.0008` (App.tsx line 148). -/
def delta : ℚ := 8 / 10000

/-- Trail-admission distance threshold, `> 0.5` (App.tsx line 164). -/
def tau : ℚ := 1 / 2

/-- Progress update of one tick (App.tsx lines 148-149):
`t += 0.0008; if (t > 1) t = 0;`. -/
def tick (t : ℚ) : ℚ :=
  if t + delta > 1 then 0 else t + delta

/-- Flattening of the trail point sequence into the position buffer
(App.tsx lines 167-172): a fresh array of `3 * trailPoints.length` floats,
filled with `x`, `y`, `z` of every point, in order. -/
def buildTrailPositions : List Vec3 → List ℚ
  | [] => []
  | p :: rest => p.x :: p.y :: p.z :: buildTrailPositions rest

/-- The trail-related mutable state: the point sequence
(`trailPointsRef`), the flat position buffer stored on the trail
geometry, and the previous-position cursor (`previousPositionRef`). -/
structure TrailState where
  trailPoints : List Vec3
  trailPositions : List ℚ
  previousPosition : Vec3
deriving DecidableEq

/-- Initial trail state (App.tsx lines 14-16): empty point list, a
`BufferGeometry` with no position attribute yet, and a cursor initialised
to `new THREE.Vector3()`, i.e. the origin. -/
def initialTrailState : TrailState :=
  { trailPoints := [], trailPositions := [], previousPosition := ⟨0, 0, 0⟩ }

/-- The trail update of one tick (App.tsx lines 164-184): if the candidate
position is farther than 0.5 from the previous admitted position
(equivalently, squared distance above `tau ^ 2`), push it, rebuild the
whole position buffer from the full sequence, and move the cursor;
otherwise leave everything untouched.  The returned boolean records
whether the candidate was admitted. -/
def maybeAppend (s : TrailState) (position : Vec3) : TrailState × Bool :=
  if tau ^ 2 < distSq s.previousPosition position then
    let points := s.trailPoints ++ [position]
    ({ trailPoints := points,
       trailPositions := buildTrailPositions points,
       previousPosition := position }, true)
  else
    (s, false)

/-- The state touched by the animation loop: the progress scalar `t`
(App.tsx line 133), the vehicle ref (`airplaneRef`, `none` until either
the loaded asset or the placeholder is stored), presence flags for the
controls and curve refs, the trail state, and a count of render calls. -/
structure AnimationState where
  t : ℚ
  airplane : Option Vec3
  controlsReady : Bool
  curveReady : Bool
  trail : TrailState
  renderCount : ℕ
deriving DecidableEq

/-- One pass of `animate` (App.tsx lines 136-190), parameterised by the
curve sampler `getPoint` (standing for `curve.getPoint`, external library
code).  The whole guarded block — progress increment, position copy,
orientation update, trail admission — runs only when `airplane`,
`controls` and `curve` are all present; controls update and render always
run.  The quaternion written on lines 156-161 is modelled separately (see
`updateAirplaneQuaternion`): it only writes `airplane.quaternion`, which
nothing else in `animate` reads. -/
def animateStep (getPoint : ℚ → Vec3) (s : AnimationState) : AnimationState :=
  if s.airplane.isSome && s.controlsReady && s.curveReady then
    let t' := tick s.t
    let position := getPoint t'
    let trail' := (maybeAppend s.trail position).1
    { s with t := t', airplane := some position, trail := trail',
             renderCount := s.renderCount + 1 }
  else
    { s with renderCount := s.renderCount + 1 }

/-- A state before any asset has resolved: `airplaneRef.current` is still
unset while controls and curve exist (they are created synchronously
during setup). -/
def loadingState : AnimationState :=
  { t := 0, airplane := none, controlsReady := true, curveReady := true,
    trail := initialTrailState, renderCount := 0 }

/-- A state just after the vehicle mesh resolved, with fresh trail
state. -/
def runningState : AnimationState :=
  { t := 0, airplane := some ⟨0, 0, 0⟩, controlsReady := true,
    curveReady := true, trail := initialTrailState, renderCount := 0 }

/-- The flight-path waypoint list (App.tsx lines 100-109).  The final
entry repeats the first (source comment: loop back). -/
def pathPoints : List Vec3 :=
  [⟨-60, 8, -40⟩, ⟨-40, 12, -10⟩, ⟨0, 18, 35⟩, ⟨25, 16, 40⟩,
   ⟨55, 10, 10⟩, ⟨35, 10, -35⟩, ⟨-20, 14, -50⟩, ⟨-60, 8, -40⟩]

/-- `curve.closed = true` (App.tsx line 112). -/
def curveClosed : Bool := true

/-- Geometry of a scene node: a procedurally built plane or cone, or an
externally loaded glTF scene identified by its URI. -/
inductive Geometry
  | plane (width height widthSegments heightSegments : ℚ)
  | cone (radius height radialSegments : ℚ)
  | gltf (uri : String)
deriving DecidableEq

/-- A scene node as far as the asset-fallback policy is concerned:
geometry, material colour (0 for glTF nodes, whose materials come with
the asset) and the two shadow flags. -/
structure MeshNode where
  geometry : Geometry
  color : ℕ
  castShadow : Bool
  receiveShadow : Bool
deriving DecidableEq

/-- State observed by the two loader callbacks: the scene contents, the
vehicle ref, how many warnings were logged, and whether any error was
propagated out of a callback (none ever is: both error callbacks only
log and build a placeholder). -/
structure AssetSceneState where
  sceneNodes : List MeshNode
  airplaneRef : Option MeshNode
  warningsLogged : ℕ
  fatalErrorRaised : Bool
deriving DecidableEq

/-- The terrain mesh as the success callback produces it (App.tsx lines
53-59): the loaded scene with `receiveShadow` set on it and on every
child (a single node here; the traversal only re-applies the same
flag). -/
def loadedMapMesh : MeshNode :=
  { geometry := .gltf ("/models/india_map.glb"), color := 0,
    castShadow := false, receiveShadow := true }

/-- The vehicle mesh as the success callback produces it (App.tsx lines
76-83): the loaded scene with `castShadow` set recursively. -/
def loadedAirplaneMesh : MeshNode :=
  { geometry := .gltf ("/models/airplane.glb"), color := 0,
    castShadow := true, receiveShadow := false }

/-- The terrain placeholder (App.tsx lines 62-71): a
`PlaneGeometry(200, 200, 100, 100)` with a standard material of colour
`0x2d5016`, `receiveShadow = true`. -/
def mapPlaceholder : MeshNode :=
  { geometry := .plane 200 200 100 100, color := 0x2d5016,
    castShadow := false, receiveShadow := true }

/-- The vehicle placeholder (App.tsx lines 86-94): a
`ConeGeometry(1, 4, 8)` with colour `0xff3333`, `castShadow = true`. -/
def airplanePlaceholder : MeshNode :=
  { geometry := .cone 1 4 8, color := 0xff3333,
    castShadow := true, receiveShadow := false }

/-- Success callback for the terrain asset (App.tsx lines 53-59). -/
def onMapLoaded (s : AssetSceneState) : AssetSceneState :=
  { s with sceneNodes := s.sceneNodes ++ [loadedMapMesh] }

/-- Success callback for the vehicle asset (App.tsx lines 76-83); it also
stores the mesh in `airplaneRef`. -/
def onAirplaneLoaded (s : AssetSceneState) : AssetSceneState :=
  { s with sceneNodes := s.sceneNodes ++ [loadedAirplaneMesh],
           airplaneRef := some loadedAirplaneMesh }

/-- Error callback for the terrain asset (App.tsx lines 60-73):
`console.warn(...)`, then build the plane placeholder and add it to the
scene.  Nothing is thrown or returned: `fatalErrorRaised` is left as it
was. -/
def onMapLoadError (s : AssetSceneState) : AssetSceneState :=
  { s with warningsLogged := s.warningsLogged + 1,
           sceneNodes := s.sceneNodes ++ [mapPlaceholder] }

/-- Error callback for the vehicle asset (App.tsx lines 84-97):
`console.warn(...)`, build the cone placeholder, add it to the scene and
store it in `airplaneRef`.  Nothing is thrown. -/
def onAirplaneLoadError (s : AssetSceneState) : AssetSceneState :=
  { s with warningsLogged := s.warningsLogged + 1,
           sceneNodes := s.sceneNodes ++ [airplanePlaceholder],
           airplaneRef := some airplanePlaceholder }

/-- Resource/scheduling bookkeeping for the mount/teardown lifecycle.
Each flag records whether the corresponding operation has happened. -/
structure LifecycleState where
  resizeListenerAttached : Bool
  rendererDisposed : Bool
  controlsDisposed : Bool
  domElementAttached : Bool
  trailGeometryDisposed : Bool
  meshRefsReleased : Bool
  animationFrameRequested : Bool
deriving DecidableEq

/-- The mounted, running application: resize listener attached, renderer
and controls alive, canvas in the DOM, trail geometry and mesh refs held,
and an animation frame pending (the loop was started on line 192). -/
def mountedState : LifecycleState :=
  { resizeListenerAttached := true, rendererDisposed := false,
    controlsDisposed := false, domElementAttached := true,
    trailGeometryDisposed := false, meshRefsReleased := false,
    animationFrameRequested := true }

/-- The effect cleanup (App.tsx lines 202-209): remove the resize
listener, dispose the renderer and the controls, detach the canvas.  The
source contains no `cancelAnimationFrame`, no `trailGeometry.dispose()`,
and never clears `airplaneRef`/`trailGeometryRef`, so those flags are
left untouched. -/
def cleanupEffect (s : LifecycleState) : LifecycleState :=
  { s with resizeListenerAttached := false,
           rendererDisposed := true,
           controlsDisposed := true,
           domElementAttached := false }

/-- The first statement of every `animate` invocation (App.tsx line 137):
`requestAnimationFrame(animate)`, unconditionally — there is no disposed
or mounted guard anywhere in the function. -/
def animateFrameStart (s : LifecycleState) : LifecycleState :=
  { s with animationFrameRequested := true }

/-- A 3D vector over `ℝ`, for the orientation pipeline whose arithmetic
(square roots, π) leaves `ℚ`. -/
structure Vec3R where
  x : ℝ
  y : ℝ
  z : ℝ

/-- A quaternion, component order as in `THREE.Quaternion` (x, y, z, w). -/
structure QuatR where
  x : ℝ
  y : ℝ
  z : ℝ
  w : ℝ

/-- The rotation part of a `THREE.Matrix4`, stored as its three basis
columns (`te[0],te[1],te[2]` / `te[4],te[5],te[6]` / `te[8],te[9],te[10]`). -/
structure Mat3R where
  xAxis : Vec3R
  yAxis : Vec3R
  zAxis : Vec3R

/-- Componentwise vector sum (`Vector3.add`). -/
noncomputable def addR (a b : Vec3R) : Vec3R :=
  ⟨a.x + b.x, a.y + b.y, a.z + b.z⟩

/-- Componentwise vector difference (`Vector3.subVectors`). -/
noncomputable def subR (a b : Vec3R) : Vec3R :=
  ⟨a.x - b.x, a.y - b.y, a.z - b.z⟩

/-- Cross product (`Vector3.crossVectors`). -/
noncomputable def crossR (a b : Vec3R) : Vec3R :=
  ⟨a.y * b.z - a.z * b.y, a.z * b.x - a.x * b.z, a.x * b.y - a.y * b.x⟩

/-- Squared length (`Vector3.lengthSq`). -/
noncomputable def lengthSqR (v : Vec3R) : ℝ :=
  v.x * v.x + v.y * v.y + v.z * v.z

/-- Scalar multiple (`Vector3.multiplyScalar`). -/
noncomputable def smulR (c : ℝ) (v : Vec3R) : Vec3R :=
  ⟨c * v.x, c * v.y, c * v.z⟩

open scoped Classical in
/-- `Vector3.normalize`: divide by `length || 1`, i.e. a zero-length
vector is left unchanged instead of producing a division by zero. -/
noncomputable def normalizeR (v : Vec3R) : Vec3R :=
  let l := Real.sqrt (lengthSqR v)
  if l = 0 then v else smulR (1 / l) v

/-- World up vector `new THREE.Vector3(0, 1, 0)` (App.tsx line 158). -/
noncomputable def worldUpR : Vec3R := ⟨0, 1, 0⟩

/-- The z axis used by `Object3D.rotateZ`. -/
noncomputable def zAxisR : Vec3R := ⟨0, 0, 1⟩

open scoped Classical in
/-- `THREE.Matrix4.lookAt(eye, target, up)`, restricted to the rotation
basis it writes.  Note the two internal degeneracy guards: a zero
eye−target vector gets its z component forced to 1, and when `up` is
parallel to the view axis (vanishing cross product) the view axis is
perturbed by 0.0001 before the basis is recomputed — the previous basis
is never consulted. -/
noncomputable def lookAtMatrix (eye target up : Vec3R) : Mat3R :=
  let z0 := subR eye target
  let z1 := if lengthSqR z0 = 0 then { z0 with z := 1 } else z0
  let z2 := normalizeR z1
  let x0 := crossR up z2
  let zx :=
    if lengthSqR x0 = 0 then
      let z3 := if |up.z| = 1 then { z2 with x := z2.x + 0.0001 }
                else { z2 with z := z2.z + 0.0001 }
      let z4 := normalizeR z3
      (crossR up z4, z4)
    else
      (x0, z2)
  let x1 := normalizeR zx.1
  let y0 := crossR zx.2 x1
  { xAxis := x1, yAxis := y0, zAxis := zx.2 }

open scoped Classical in
/-- `THREE.Quaternion.setFromRotationMatrix`, with the four trace
branches of the source. -/
noncomputable def setFromRotationMatrix (m : Mat3R) : QuatR :=
  let m11 := m.xAxis.x
  let m12 := m.yAxis.x
  let m13 := m.zAxis.x
  let m21 := m.xAxis.y
  let m22 := m.yAxis.y
  let m23 := m.zAxis.y
  let m31 := m.xAxis.z
  let m32 := m.yAxis.z
  let m33 := m.zAxis.z
  let trace := m11 + m22 + m33
  if trace > 0 then
    let s := 0.5 / Real.sqrt (trace + 1)
    ⟨(m32 - m23) * s, (m13 - m31) * s, (m21 - m12) * s, 0.25 / s⟩
  else if m11 > m22 ∧ m11 > m33 then
    let s := 2 * Real.sqrt (1 + m11 - m22 - m33)
    ⟨0.25 * s, (m12 + m21) / s, (m13 + m31) / s, (m32 - m23) / s⟩
  else if m22 > m33 then
    let s := 2 * Real.sqrt (1 + m22 - m11 - m33)
    ⟨(m12 + m21) / s, 0.25 * s, (m23 + m32) / s, (m13 - m31) / s⟩
  else
    let s := 2 * Real.sqrt (1 + m33 - m11 - m22)
    ⟨(m13 + m31) / s, (m23 + m32) / s, 0.25 * s, (m21 - m12) / s⟩

/-- `THREE.Quaternion.multiplyQuaternions(a, b)`. -/
noncomputable def quatMultiply (a b : QuatR) : QuatR :=
  ⟨a.x * b.w + a.w * b.x + a.y * b.z - a.z * b.y,
   a.y * b.w + a.w * b.y + a.z * b.x - a.x * b.z,
   a.z * b.w + a.w * b.z + a.x * b.y - a.y * b.x,
   a.w * b.w - a.x * b.x - a.y * b.y - a.z * b.z⟩

/-- `THREE.Quaternion.setFromAxisAngle(axis, angle)`. -/
noncomputable def quatFromAxisAngle (axis : Vec3R) (angle : ℝ) : QuatR :=
  let h := angle / 2
  let s := Real.sin h
  ⟨axis.x * s, axis.y * s, axis.z * s, Real.cos h⟩

/-- The per-tick orientation update of the vehicle (App.tsx lines
156-161): build the lookAt matrix from the current position and tangent,
set the quaternion from it, then apply `rotateZ(Math.PI / 2)`
(i.e. right-multiply by the axis-angle quaternion about z).  The
previous quaternion is overwritten: no branch of this computation reads
it, which the unused first parameter makes explicit. -/
noncomputable def updateAirplaneQuaternion
    (_previous : QuatR) (position tangent : Vec3R) : QuatR :=
  let matrix := lookAtMatrix position (addR position tangent) worldUpR
  let q := setFromRotationMatrix matrix
  quatMultiply q (quatFromAxisAngle zAxisR (Real.pi / 2))

/-- A tick whose sum stays at or below 1 adds exactly `delta`. -/
theorem tick_of_add_le (t : ℚ) (h : t + delta ≤ 1) : tick t = t + delta := by
  simp [tick, not_lt.mpr h]

/-- Iterating `tick` from 0 walks through the grid `k / 1250`: in exact
arithmetic the progress value hits every multiple of `delta` up to and
including 1. -/
theorem tick_iterate_eq : ∀ k : ℕ, k ≤ 1250 → tick^[k] 0 = (k : ℚ) / 1250 := by
  intro k
  induction k with
  | zero => intro _; simp
  | succ n ih =>
    intro hk
    have hn : n ≤ 1250 := by omega
    rw [Function.iterate_succ_apply', ih hn]
    have hc : ((n : ℚ)) ≤ 1249 := by exact_mod_cast (by omega : n ≤ 1249)
    have hle : (n : ℚ) / 1250 + delta ≤ 1 := by rw [delta]; linarith
    rw [tick_of_add_le _ hle, delta]
    push_cast
    ring

/-- C1 counterexample: starting from 0, after 1249 ticks the progress is
1249/1250; the next tick produces exactly 1, which is not in [0,1), is
not wrapped to 0 although it reached 1, and differs from the claimed
value (t + Δ) mod 1 = 0.  The code wraps only on strict overshoot
(`if (t > 1) t = 0`), discarding the overshoot rather than taking a
modulus. -/
theorem progress_wrap_counterexample :
    tick^[1249] 0 = 1249 / 1250
    ∧ tick (1249 / 1250) = 1
    ∧ ¬ tick (1249 / 1250) < 1
    ∧ tick (1249 / 1250) ≠ Int.fract (1249 / 1250 + delta) := by
  have h0 : tick^[1249] 0 = 1249 / 1250 := by
    have := tick_iterate_eq 1249 (by norm_num)
    push_cast at this
    exact this
  have h1 : tick (1249 / 1250) = 1 := by norm_num [tick, delta]
  refine ⟨h0, h1, by rw [h1]; exact lt_irrefl 1, ?_⟩
  have h2 : (1249 / 1250 : ℚ) + delta = 1 := by norm_num [delta]
  rw [h1, h2, Int.fract_one]
  norm_num

/-- C1 (amended): each Running tick adds Δ = 0.0008 and resets t to 0
only when the sum strictly exceeds 1; the updated t always lies in the
closed interval [0,1] (it can sit at exactly 1 for one tick), and the
update is a reset to zero on overshoot, not (t + Δ) mod 1. -/
theorem tick_spec (t : ℚ) (h0 : 0 ≤ t) (_hle : t ≤ 1) :
    (0 ≤ tick t ∧ tick t ≤ 1)
    ∧ (t + delta ≤ 1 → tick t = t + delta)
    ∧ (1 < t + delta → tick t = 0) := by
  unfold tick
  refine ⟨?_, fun hle => if_neg (not_lt.mpr hle), fun hgt => if_pos hgt⟩
  split_ifs with h
  · norm_num
  · have hd : (0 : ℚ) ≤ delta := by norm_num [delta]
    push_neg at h
    exact ⟨by linarith, h⟩

/-- Witness for `tick_spec` at t = 1/2. -/
theorem tick_spec_witness :
    (0 ≤ tick (1 / 2) ∧ tick (1 / 2) ≤ 1) ∧ tick (1 / 2) = 1 / 2 + delta :=
  ⟨(tick_spec (1 / 2) (by norm_num) (by norm_num)).1,
   (tick_spec (1 / 2) (by norm_num) (by norm_num)).2.1 (by norm_num [delta])⟩

/-- C2 counterexample: on a tick where the vehicle mesh is not yet
resolved (`airplaneRef.current` unset), the progress value does NOT
advance — the `t += 0.0008` line sits inside the
`if (airplane && controls && curve)` guard — although `tick 0 ≠ 0`. -/
theorem progress_stalls_without_vehicle :
    (animateStep (fun _ => ⟨0, 0, 0⟩) loadingState).t = 0 ∧ tick 0 ≠ 0 := by
  exact ⟨rfl, by norm_num [tick, delta]⟩

/-- C2 (amended): on every tick in which the vehicle mesh has not been
resolved, the whole guarded animation block is skipped — the progress
value does not advance, the trail state is untouched and the vehicle ref
stays unset; only the controls update and the render run. -/
theorem no_vehicle_tick_skips_all (g : ℚ → Vec3) (s : AnimationState)
    (h : s.airplane = none) :
    (animateStep g s).t = s.t
    ∧ (animateStep g s).trail = s.trail
    ∧ (animateStep g s).airplane = none
    ∧ (animateStep g s).renderCount = s.renderCount + 1 := by
  simp [animateStep, h]

/-- Witness for `no_vehicle_tick_skips_all` at the pre-resolution
state. -/
theorem no_vehicle_tick_skips_all_witness :
    (animateStep (fun _ => ⟨1, 1, 1⟩) loadingState).trail = loadingState.trail :=
  (no_vehicle_tick_skips_all (fun _ => ⟨1, 1, 1⟩) loadingState rfl).2.1

/-- C3: a candidate is admitted into the trail iff its squared distance
from the previous admitted position exceeds τ² (the source compares the
Euclidean distance with τ = 0.5); two consecutive candidates closer than
τ to the last admitted point never both admit, and a second candidate
farther than τ from an admitted first always admits. -/
theorem trail_admission_spec (s : TrailState) (p₁ p₂ : Vec3) :
    ((maybeAppend s p₁).2 = true ↔ tau ^ 2 < distSq s.previousPosition p₁)
    ∧ (distSq s.previousPosition p₁ < tau ^ 2 →
        distSq s.previousPosition p₂ < tau ^ 2 →
        (maybeAppend s p₁).2 = false
          ∧ (maybeAppend (maybeAppend s p₁).1 p₂).2 = false)
    ∧ ((maybeAppend s p₁).2 = true → tau ^ 2 < distSq p₁ p₂ →
        (maybeAppend (maybeAppend s p₁).1 p₂).2 = true) := by
  refine ⟨?_, ?_, ?_⟩
  · by_cases h : tau ^ 2 < distSq s.previousPosition p₁ <;> simp [maybeAppend, h]
  · intro h1 h2
    have hn1 : ¬ tau ^ 2 < distSq s.previousPosition p₁ := not_lt.mpr (le_of_lt h1)
    have hn2 : ¬ tau ^ 2 < distSq s.previousPosition p₂ := not_lt.mpr (le_of_lt h2)
    simp [maybeAppend, hn1, hn2]
  · intro hadm hd
    by_cases h : tau ^ 2 < distSq s.previousPosition p₁
    · simp [maybeAppend, h, hd]
    · simp [maybeAppend, h] at hadm

/-- Witness for `trail_admission_spec`: two near candidates both
rejected, and a far second candidate admitted after an admitted first. -/
theorem trail_admission_spec_witness :
    ((maybeAppend initialTrailState ⟨3 / 10, 0, 0⟩).2 = false
      ∧ (maybeAppend (maybeAppend initialTrailState ⟨3 / 10, 0, 0⟩).1
          ⟨2 / 10, 0, 0⟩).2 = false)
    ∧ (maybeAppend (maybeAppend initialTrailState ⟨1, 0, 0⟩).1 ⟨2, 0, 0⟩).2 = true :=
  ⟨(trail_admission_spec initialTrailState ⟨3 / 10, 0, 0⟩ ⟨2 / 10, 0, 0⟩).2.1
      (by norm_num [initialTrailState, distSq, tau])
      (by norm_num [initialTrailState, distSq, tau]),
   (trail_admission_spec initialTrailState ⟨1, 0, 0⟩ ⟨2, 0, 0⟩).2.2
      ((trail_admission_spec initialTrailState ⟨1, 0, 0⟩ ⟨2, 0, 0⟩).1.mpr
        (by norm_num [initialTrailState, distSq, tau]))
      (by norm_num [distSq, tau])⟩

/-- The rebuilt buffer has exactly three entries per trail point. -/
theorem buildTrailPositions_length (ps : List Vec3) :
    (buildTrailPositions ps).length = 3 * ps.length := by
  induction ps with
  | nil => rfl
  | cons p rest ih => simp [buildTrailPositions, ih]; ring

/-- Entry `3i` / `3i+1` / `3i+2` of the rebuilt buffer is the x / y / z
coordinate of point `i`. -/
theorem buildTrailPositions_get (ps : List Vec3) :
    ∀ i : ℕ, i < ps.length →
      (buildTrailPositions ps)[3 * i]? = (ps[i]?).map Vec3.x
      ∧ (buildTrailPositions ps)[3 * i + 1]? = (ps[i]?).map Vec3.y
      ∧ (buildTrailPositions ps)[3 * i + 2]? = (ps[i]?).map Vec3.z := by
  induction ps with
  | nil => intro i h; simp at h
  | cons p rest ih =>
    intro i h
    cases i with
    | zero => simp [buildTrailPositions]
    | succ j =>
      have hj : j < rest.length := by simp at h; omega
      obtain ⟨ihx, ihy, ihz⟩ := ih j hj
      refine ⟨?_, ?_, ?_⟩
      · have e : 3 * (j + 1) = 3 * j + 1 + 1 + 1 := by ring
        rw [e]
        simpa only [buildTrailPositions, List.getElem?_cons_succ] using ihx
      · have e : 3 * (j + 1) + 1 = 3 * j + 1 + 1 + 1 + 1 := by ring
        rw [e]
        simpa only [buildTrailPositions, List.getElem?_cons_succ] using ihy
      · have e : 3 * (j + 1) + 2 = 3 * j + 2 + 1 + 1 + 1 := by ring
        rw [e]
        simpa only [buildTrailPositions, List.getElem?_cons_succ] using ihz

/-- C4: for a trail of k points the rebuilt position buffer holds exactly
3k floats, laid out as x, y, z of every point in order, and after every
admission the stored buffer equals the one rebuilt from the full point
sequence. -/
theorem trail_buffer_spec (ps : List Vec3) (s : TrailState) (pos : Vec3) :
    (buildTrailPositions ps).length = 3 * ps.length
    ∧ (∀ i : ℕ, i < ps.length →
        (buildTrailPositions ps)[3 * i]? = (ps[i]?).map Vec3.x
        ∧ (buildTrailPositions ps)[3 * i + 1]? = (ps[i]?).map Vec3.y
        ∧ (buildTrailPositions ps)[3 * i + 2]? = (ps[i]?).map Vec3.z)
    ∧ ((maybeAppend s pos).2 = true →
        (maybeAppend s pos).1.trailPositions
          = buildTrailPositions (maybeAppend s pos).1.trailPoints) := by
  refine ⟨buildTrailPositions_length ps, buildTrailPositions_get ps, ?_⟩
  intro h
  by_cases hc : tau ^ 2 < distSq s.previousPosition pos
  · simp [maybeAppend, hc]
  · simp [maybeAppend, hc] at h

/-- Witness for `trail_buffer_spec` on a two-point trail and one
admission. -/
theorem trail_buffer_spec_witness :
    (buildTrailPositions [⟨1, 2, 3⟩, ⟨4, 5, 6⟩])[3]? = some 4
    ∧ (maybeAppend initialTrailState ⟨1, 0, 0⟩).1.trailPositions
        = buildTrailPositions (maybeAppend initialTrailState ⟨1, 0, 0⟩).1.trailPoints := by
  constructor
  · have h := ((trail_buffer_spec [⟨1, 2, 3⟩, ⟨4, 5, 6⟩] initialTrailState
      ⟨1, 0, 0⟩).2.1 1 (by norm_num)).1
    norm_num at h
    exact h
  · exact (trail_buffer_spec [] initialTrailState ⟨1, 0, 0⟩).2.2
      (by norm_num [maybeAppend, initialTrailState, distSq, tau])

/-- C5 counterexample: at a tick whose tangent is exactly world-up (the
degenerate case: the cross product with up vanishes), the orientation
written by the code is NOT the previous frame's orientation: the
quaternion is recomputed from the lookAt matrix, which never reads the
previous value, so it cannot equal two different previous orientations at
the same pose. -/
theorem degenerate_orientation_counterexample :
    crossR worldUpR worldUpR = ⟨0, 0, 0⟩
    ∧ ¬ ∀ prev : QuatR,
        updateAirplaneQuaternion prev ⟨0, 0, 0⟩ worldUpR = prev := by
  constructor
  · norm_num [crossR, worldUpR]
  · intro h
    have h₁ := h ⟨0, 0, 0, 1⟩
    have h₂ := h ⟨1, 0, 0, 0⟩
    have key : updateAirplaneQuaternion ⟨0, 0, 0, 1⟩ ⟨0, 0, 0⟩ worldUpR
        = updateAirplaneQuaternion ⟨1, 0, 0, 0⟩ ⟨0, 0, 0⟩ worldUpR := rfl
    have hq : (⟨0, 0, 0, 1⟩ : QuatR) = ⟨1, 0, 0, 0⟩ := h₁.symm.trans (key.trans h₂)
    have h0 := congrArg QuatR.w hq
    norm_num at h0

/-- C5 (amended): the orientation written to the vehicle is a function of
the current position and path tangent only — it is recomputed from the
lookAt matrix every tick and never depends on (hence never retains) the
previous frame's orientation, including when the tangent is parallel to
world-up, where the lookAt construction perturbs its view axis instead. -/
theorem orientation_ignores_previous (p₁ p₂ : QuatR) (position tangent : Vec3R) :
    updateAirplaneQuaternion p₁ position tangent
      = updateAirplaneQuaternion p₂ position tangent := rfl

/-- C6: on a tick whose candidate position is not admitted (squared
distance to the cursor not above τ²), the trail point sequence, the
rebuilt buffer and the previous-position cursor are all left exactly as
they were. -/
theorem no_admission_leaves_trail_unchanged (g : ℚ → Vec3) (s : AnimationState)
    (ha : s.airplane.isSome = true) (hc : s.controlsReady = true)
    (hk : s.curveReady = true)
    (hd : ¬ tau ^ 2 < distSq s.trail.previousPosition (g (tick s.t))) :
    (animateStep g s).trail.trailPoints = s.trail.trailPoints
    ∧ (animateStep g s).trail.trailPositions = s.trail.trailPositions
    ∧ (animateStep g s).trail.previousPosition = s.trail.previousPosition := by
  simp [animateStep, ha, hc, hk, maybeAppend, hd]

/-- Witness for `no_admission_leaves_trail_unchanged`: the curve sampler
returns the cursor position itself, so nothing is admitted. -/
theorem no_admission_leaves_trail_unchanged_witness :
    (animateStep (fun _ => ⟨0, 0, 0⟩) runningState).trail.previousPosition
      = runningState.trail.previousPosition :=
  (no_admission_leaves_trail_unchanged (fun _ => ⟨0, 0, 0⟩) runningState rfl rfl rfl
    (by norm_num [runningState, initialTrailState, distSq, tau])).2.2

/-- C7: after the effect cleanup runs on the mounted app, the next
`animate` invocation still schedules a further frame (the source has no
`cancelAnimationFrame` and no mounted guard), and neither the trail
geometry buffer nor the held mesh references are released — only the
resize listener, renderer and controls are torn down. -/
theorem cleanup_keeps_ticking_and_leaks :
    (animateFrameStart (cleanupEffect mountedState)).animationFrameRequested = true
    ∧ (cleanupEffect mountedState).trailGeometryDisposed = false
    ∧ (cleanupEffect mountedState).meshRefsReleased = false
    ∧ (cleanupEffect mountedState).rendererDisposed = true
    ∧ (cleanupEffect mountedState).controlsDisposed = true
    ∧ (cleanupEffect mountedState).resizeListenerAttached = false :=
  ⟨rfl, rfl, rfl, rfl, rfl, rfl⟩

/-- C8: each load-error callback logs a warning, synthesizes the
deterministic placeholder of the right silhouette (plane for terrain,
cone for the vehicle), gives it the same shadow flag the loaded asset
would receive, adds it to the scene (storing the vehicle one in the
ref), and raises no fatal error. -/
theorem asset_fallback_spec (s : AssetSceneState) :
    ((onMapLoadError s).fatalErrorRaised = s.fatalErrorRaised
      ∧ (onMapLoadError s).warningsLogged = s.warningsLogged + 1
      ∧ mapPlaceholder ∈ (onMapLoadError s).sceneNodes
      ∧ mapPlaceholder.geometry = Geometry.plane 200 200 100 100
      ∧ mapPlaceholder.receiveShadow = loadedMapMesh.receiveShadow)
    ∧ ((onAirplaneLoadError s).fatalErrorRaised = s.fatalErrorRaised
      ∧ (onAirplaneLoadError s).warningsLogged = s.warningsLogged + 1
      ∧ airplanePlaceholder ∈ (onAirplaneLoadError s).sceneNodes
      ∧ airplanePlaceholder.geometry = Geometry.cone 1 4 8
      ∧ airplanePlaceholder.castShadow = loadedAirplaneMesh.castShadow
      ∧ (onAirplaneLoadError s).airplaneRef = some airplanePlaceholder) := by
  refine ⟨⟨rfl, rfl, ?_, rfl, rfl⟩, rfl, rfl, ?_, rfl, rfl, rfl⟩
  · simp [onMapLoadError]
  · simp [onAirplaneLoadError]

/-- C9 counterexample: the path is closed, and the final waypoint equals
the first one; under the closed wrap the pair (final, first) is therefore
a consecutive duplicate, violating the no-consecutive-duplicates
invariant. -/
theorem waypoint_duplicate_counterexample :
    curveClosed = true
    ∧ pathPoints.getLast? = pathPoints.head?
    ∧ pathPoints.head? = some ⟨-60, 8, -40⟩ :=
  ⟨rfl, by decide, by decide⟩

/-- C9 (amended): adjacent entries of the waypoint list are pairwise
distinct, but the final waypoint repeats the first, so the closed-path
wrap segment degenerates to a duplicate pair. -/
theorem waypoint_adjacent_distinct_except_wrap :
    List.Chain' (fun p q => p ≠ q) pathPoints
    ∧ pathPoints.getLast? = pathPoints.head?
    ∧ curveClosed = true :=
  ⟨by norm_num [pathPoints, List.chain'_cons, Vec3.mk.injEq], by decide, rfl⟩

/-- C10: before any admission the previous-position cursor is the zero
vector, so the very first candidate is admitted iff its (squared)
distance from the world origin exceeds τ² — in particular a first
candidate at the origin itself is rejected, not admitted
unconditionally. -/
theorem initial_cursor_spec :
    initialTrailState.previousPosition = ⟨0, 0, 0⟩
    ∧ (∀ pos : Vec3, (maybeAppend initialTrailState pos).2 = true
        ↔ tau ^ 2 < distSq ⟨0, 0, 0⟩ pos)
    ∧ (maybeAppend initialTrailState ⟨0, 0, 0⟩).2 = false := by
  refine ⟨rfl, ?_, ?_⟩
  · intro pos
    by_cases h : tau ^ 2 < distSq (⟨0, 0, 0⟩ : Vec3) pos
    · simp [maybeAppend, initialTrailState, h]
    · simp [maybeAppend, initialTrailState, h]
  · norm_num [maybeAppend, initialTrailState, distSq, tau]

/-- Witness for `initial_cursor_spec`: a first candidate 3/5 away from
the origin is admitted. -/
theorem initial_cursor_spec_witness :
    (maybeAppend initialTrailState ⟨0, 3 / 5, 0⟩).2 = true :=
  (initial_cursor_spec.2.1 ⟨0, 3 / 5, 0⟩).mpr (by norm_num [distSq, tau])

end IndiaMap
